import Mathlib

/-!
Shallow embedding of `src/gullylink/main.py` (FastAPI demo "GULLYLINK-AI").

The embedded state consists of the module-level `VENDORS` and `MENU`
dictionaries and the `ConnectionManager.active_connections` list.  Python
dictionaries are modelled as association lists with distinct keys; Python
`float` coordinate fields, which the code only stores and compares and never
does arithmetic on, are modelled as `Rat`; websocket handles are opaque `Nat`
identifiers.  Exceptions are modelled with `Option`/explicit outcome
constructors.
-/

namespace GullyLink

/-- An open websocket connection, as an opaque handle. -/
abbrev Conn := Nat

/-- The `order_data` dictionary built inside `place_order`:
`{"id": ..., "item": ..., "status": ..., "lat": ..., "lng": ...}`. -/
structure OrderData where
  id : Nat
  item : String
  status : String
  lat : Rat
  lng : Rat
deriving DecidableEq

/-- One value of the `VENDORS` dictionary
(`{"id", "name", "lat", "lng", "icon", "category", "orders"}`). -/
structure Vendor where
  id : String
  name : String
  lat : Rat
  lng : Rat
  icon : String
  category : String
  orders : List OrderData
deriving DecidableEq

/-- One entry of a `MENU` value: `{"item": ..., "price": ...}`. -/
structure MenuItem where
  item : String
  price : Nat
deriving DecidableEq

/-- The JSON messages that travel over the websocket channel, discriminated by
their `"type"` field.  `location_update` carries `id`, `lat`, `lng`;
`order_update` is forwarded verbatim, so its payload is kept opaque;
`new_order` is the server-built message of `place_order`. -/
inductive Msg where
  | location_update (id : String) (lat lng : Rat)
  | order_update (payload : String)
  | new_order (vendor_id : String) (order : OrderData)
deriving DecidableEq

/-- Lookup in a Python dictionary modelled as an association list
(`d[k]` / `k in d`). -/
def alistFind {α : Type} (k : String) : List (String × α) → Option α
  | [] => none
  | (k', v) :: rest => if k' = k then some v else alistFind k rest

/-- In-place mutation of one entry of a Python dictionary modelled as an
association list (`d[k] = f(d[k])`); keys other than `k` are untouched. -/
def alistModify {α : Type} (k : String) (f : α → α) : List (String × α) → List (String × α)
  | [] => []
  | (k', v) :: rest =>
      if k' = k then (k', f v) :: rest else (k', v) :: alistModify k f rest

/-- The shared module-level state of `main.py`: the `VENDORS` table, the
`MENU` table and `manager.active_connections`. -/
structure ServerState where
  vendors : List (String × Vendor)
  menu : List (String × List MenuItem)
  active_connections : List Conn
deriving DecidableEq

/-- `ConnectionManager.connect`: after accepting the handshake the socket is
appended to `active_connections` (no duplicate check). -/
def connect (ws : Conn) (conns : List Conn) : List Conn := conns ++ [ws]

/-- Python `list.remove`: deletes the first occurrence of `ws`, or raises
`ValueError` (here `none`) when `ws` is absent. -/
def removeFirst (ws : Conn) : List Conn → Option (List Conn)
  | [] => none
  | c :: rest =>
      if c = ws then some rest else (removeFirst ws rest).map (fun l => c :: l)

/-- `ConnectionManager.disconnect`: `self.active_connections.remove(websocket)`.
Returns `none` when `list.remove` raises `ValueError`. -/
def disconnect (ws : Conn) (conns : List Conn) : Option (List Conn) :=
  removeFirst ws conns

/-- `ConnectionManager.broadcast` when every `send_json` succeeds: the `for`
loop delivers `m` to each connection in registry order. -/
def broadcast (conns : List Conn) (m : Msg) : List (Conn × Msg) :=
  conns.map (fun c => (c, m))

/-- `ConnectionManager.broadcast` under a send-failure model: `send_json`
raises for exactly the connections with `fails c = true`.  The bare `for` loop
has no exception handling, so the first failing send propagates out of
`broadcast`; the result is the list of deliveries made before the failure and
the failing connection, if any. -/
def broadcastFail (fails : Conn → Bool) (conns : List Conn) (m : Msg) :
    List (Conn × Msg) × Option Conn :=
  match conns with
  | [] => ([], none)
  | c :: rest =>
      if fails c then ([], some c)
      else
        let r := broadcastFail fails rest m
        ((c, m) :: r.1, r.2)

/-- The effect of one call of `ConnectionManager.broadcast` on the manager
state, under the send-failure model: the method body contains no statement
mutating `active_connections`, so the registry after the call is the registry
before it, whether or not a send raised. -/
def broadcastStep (fails : Conn → Bool) (m : Msg) (conns : List Conn) :
    List Conn × List (Conn × Msg) × Option Conn :=
  (conns, broadcastFail fails conns m)

/-- The request body of `POST /api/order` (pydantic model `Order`). -/
structure OrderReq where
  vendor_id : String
  item : String
  customer_lat : Rat
  customer_lng : Rat
deriving DecidableEq

/-- The JSON value returned by `place_order`: either
`{"status": "Order Placed", "order_id": id}` or `{"status": "Vendor not found"}`. -/
inductive PlaceResult where
  | placed (order_id : Nat)
  | vendorNotFound
deriving DecidableEq

/-- Model of Python `random.randint lo hi`: an integer drawn from the
inclusive range `[lo, hi]`, here as a function of an arbitrary draw `g` of the
underlying random source. -/
def randint (lo hi g : Nat) : Nat := lo + g % (hi - lo + 1)

/-- The `order_data` dictionary built by `place_order` for request `req` when
`random.randint` yields draw `g`. -/
def mkOrderData (g : Nat) (req : OrderReq) : OrderData :=
  { id := randint 1000 9999 g
    item := req.item
    status := "Pending"
    lat := req.customer_lat
    lng := req.customer_lng }

/-- `place_order` (route `POST /api/order`), with all broadcast sends
succeeding.  Returns the new state, the deliveries made by `manager.broadcast`,
and the JSON result.  `g` is the draw consumed by `random.randint`. -/
def place_order (g : Nat) (req : OrderReq) (s : ServerState) :
    ServerState × List (Conn × Msg) × PlaceResult :=
  match alistFind req.vendor_id s.vendors with
  | some _ =>
      let order_data : OrderData := mkOrderData g req
      let vendors :=
        alistModify req.vendor_id
          (fun v => { v with orders := v.orders ++ [order_data] }) s.vendors
      ({ s with vendors := vendors },
       broadcast s.active_connections (Msg.new_order req.vendor_id order_data),
       PlaceResult.placed order_data.id)
  | none => (s, [], PlaceResult.vendorNotFound)

/-- One iteration of the `websocket_endpoint` receive-loop body on a
well-formed message, with all broadcast sends succeeding: a `location_update`
for a vendor present in `VENDORS` stores the message's `lat`/`lng` into that
vendor and broadcasts the received message; for an absent vendor nothing
happens (the broadcast call sits inside the `if vendor_id in VENDORS` block);
an `order_update` is broadcast verbatim; any other type matches no branch. -/
def handle_message (m : Msg) (s : ServerState) : ServerState × List (Conn × Msg) :=
  match m with
  | Msg.location_update vid lat lng =>
      match alistFind vid s.vendors with
      | some _ =>
          let vendors :=
            alistModify vid (fun v => { v with lat := lat, lng := lng }) s.vendors
          ({ s with vendors := vendors },
           broadcast s.active_connections (Msg.location_update vid lat lng))
      | none => (s, [])
  | Msg.order_update payload => (s, broadcast s.active_connections (Msg.order_update payload))
  | Msg.new_order _ _ => (s, [])

/-- What one `await websocket.receive_json()` of the loop produces:
a well-formed message, a `WebSocketDisconnect`, or some other exception
(malformed JSON, or a `KeyError` raised while the body reads a missing
field). -/
inductive RecvEvent where
  | msg (m : Msg)
  | disconnectExn
  | otherExn
deriving DecidableEq

/-- How a run of the `websocket_endpoint` handler ends: the event trace is
exhausted with the `while True` loop still blocked in `receive_json`; the loop
was left via `WebSocketDisconnect`, which the `except` clause catches; or an
exception other than `WebSocketDisconnect` escaped the handler uncaught. -/
inductive HandlerExit where
  | stillRunning
  | disconnected
  | crashed
deriving DecidableEq

/-- The `try`/`while True` loop of `websocket_endpoint`, run over a trace of
receive events.  Only `WebSocketDisconnect` is caught, and only that branch
calls `manager.disconnect`; any other exception propagates with the state as
it stands.  Returns the final state, all deliveries made, and how the run
ended. -/
def runLoop (ws : Conn) : List RecvEvent → ServerState → ServerState × List (Conn × Msg) × HandlerExit
  | [], s => (s, [], HandlerExit.stillRunning)
  | RecvEvent.msg m :: rest, s =>
      let r := handle_message m s
      let r' := runLoop ws rest r.1
      (r'.1, r.2 ++ r'.2.1, r'.2.2)
  | RecvEvent.disconnectExn :: _, s =>
      match disconnect ws s.active_connections with
      | some conns => ({ s with active_connections := conns }, [], HandlerExit.disconnected)
      | none => (s, [], HandlerExit.crashed)
  | RecvEvent.otherExn :: _, s => (s, [], HandlerExit.crashed)

/-- The whole `websocket_endpoint` handler for socket `ws`:
`manager.connect` appends the socket, then the receive loop runs over the
event trace. -/
def websocket_endpoint (ws : Conn) (events : List RecvEvent) (s : ServerState) :
    ServerState × List (Conn × Msg) × HandlerExit :=
  runLoop ws events { s with active_connections := connect ws s.active_connections }

/-- The module-level `VENDORS` table of `main.py`. -/
def VENDORS : List (String × Vendor) :=
  [("v1", { id := "v1", name := "Chai Point", lat := mkRat 286139 10000, lng := mkRat 772090 10000,
            icon := "☕", category := "Beverages", orders := [] }),
   ("v2", { id := "v2", name := "Burger Singh", lat := mkRat 286129 10000, lng := mkRat 772100 10000,
            icon := "🍔", category := "Fast Food", orders := [] }),
   ("v3", { id := "v3", name := "Sharma Sweets", lat := mkRat 286145 10000, lng := mkRat 772080 10000,
            icon := "🍬", category := "Sweets", orders := [] }),
   ("v4", { id := "v4", name := "Pizza Hut Mobile", lat := mkRat 286150 10000, lng := mkRat 772110 10000,
            icon := "🍕", category := "Italian", orders := [] }),
   ("v5", { id := "v5", name := "Gully Momos", lat := mkRat 286110 10000, lng := mkRat 772070 10000,
            icon := "🥟", category := "Street Food", orders := [] })]

/-- The module-level `MENU` table of `main.py`. -/
def MENU : List (String × List MenuItem) :=
  [("v1", [{ item := "Masala Chai", price := 20 }, { item := "Bun Maska", price := 40 }]),
   ("v2", [{ item := "Veggie Burger", price := 80 }, { item := "Fries", price := 60 }]),
   ("v3", [{ item := "Rasgulla", price := 30 }, { item := "Samosa", price := 15 }]),
   ("v4", [{ item := "Margherita Pizza", price := 150 }, { item := "Garlic Bread", price := 90 }]),
   ("v5", [{ item := "Steamed Momos", price := 50 }, { item := "Fried Momos", price := 60 }])]

/-- Server state at process start: the dummy tables and no connections. -/
def initState : ServerState :=
  { vendors := VENDORS, menu := MENU, active_connections := [] }

/-- Server state with a single registered connection `1`. -/
def stOne : ServerState :=
  { vendors := VENDORS, menu := MENU, active_connections := [1] }

/-- The initial `VENDORS["v1"]` record. -/
def vendorV1 : Vendor :=
  { id := "v1", name := "Chai Point", lat := mkRat 286139 10000, lng := mkRat 772090 10000,
    icon := "☕", category := "Beverages", orders := [] }

/-- A sample order request against the known vendor `v1`. -/
def reqV1 : OrderReq :=
  { vendor_id := "v1", item := "Masala Chai",
    customer_lat := mkRat 2861 100, customer_lng := mkRat 7720 100 }

/-- A sample order request against an id absent from `VENDORS`. -/
def reqV9 : OrderReq :=
  { vendor_id := "v9", item := "Masala Chai",
    customer_lat := mkRat 2861 100, customer_lng := mkRat 7720 100 }

/-! ## Helper lemmas about the dictionary and registry operations -/

theorem alistFind_alistModify_self {α : Type} (k : String) (f : α → α)
    (l : List (String × α)) :
    alistFind k (alistModify k f l) = (alistFind k l).map f := by
  induction l with
  | nil => rfl
  | cons p rest ih =>
      obtain ⟨ke, v⟩ := p
      by_cases hk : ke = k
      · simp [alistModify, alistFind, hk]
      · simp [alistModify, alistFind, hk, ih]

theorem alistFind_alistModify_ne {α : Type} (k k' : String) (f : α → α)
    (l : List (String × α)) (h : k' ≠ k) :
    alistFind k' (alistModify k f l) = alistFind k' l := by
  induction l with
  | nil => rfl
  | cons p rest ih =>
      obtain ⟨ke, v⟩ := p
      by_cases hk : ke = k
      · subst hk
        have hne : ke ≠ k' := fun hh => h hh.symm
        simp [alistModify, alistFind, hne]
      · simp [alistModify, alistFind, hk, ih]

theorem removeFirst_eq_none_iff (ws : Conn) (l : List Conn) :
    removeFirst ws l = none ↔ ws ∉ l := by
  induction l with
  | nil => simp [removeFirst]
  | cons c rest ih =>
      by_cases hc : c = ws
      · subst hc; simp [removeFirst]
      · have hws : ws ≠ c := fun hh => hc hh.symm
        simp [removeFirst, hc, Option.map_eq_none', ih, hws]

theorem removeFirst_append_self (ws : Conn) (l : List Conn) (h : ws ∉ l) :
    removeFirst ws (l ++ [ws]) = some l := by
  induction l with
  | nil => simp [removeFirst]
  | cons c rest ih =>
      have hc : c ≠ ws := fun hh => h (hh ▸ List.mem_cons_self c rest)
      have hrest : ws ∉ rest := fun hh => h (List.mem_cons_of_mem c hh)
      simp [removeFirst, hc, ih hrest]

theorem handle_message_active_connections (m : Msg) (s : ServerState) :
    (handle_message m s).1.active_connections = s.active_connections := by
  cases m with
  | location_update vid lat lng =>
      cases h : alistFind vid s.vendors <;> simp [handle_message, h]
  | order_update payload => rfl
  | new_order vid od => rfl

theorem broadcastFail_first_failure (fails : Conn → Bool) (m : Msg)
    (pre post : List Conn) (k : Conn)
    (hpre : ∀ c ∈ pre, fails c = false) (hk : fails k = true) :
    broadcastFail fails (pre ++ k :: post) m =
      (pre.map (fun c => (c, m)), some k) := by
  induction pre with
  | nil => simp [broadcastFail, hk]
  | cons c rest ih =>
      have hc : fails c = false := hpre c (List.mem_cons_self c rest)
      have hrest : ∀ x ∈ rest, fails x = false :=
        fun x hx => hpre x (List.mem_cons_of_mem c hx)
      simp [broadcastFail, hc, ih hrest]

theorem runLoop_membership (ws : Conn) (events : List RecvEvent) :
    ∀ s : ServerState, ∀ base : List Conn,
      ws ∉ base → s.active_connections = base ++ [ws] →
      ((runLoop ws events s).2.2 = HandlerExit.disconnected →
          (runLoop ws events s).1.active_connections = base) ∧
      ((runLoop ws events s).2.2 ≠ HandlerExit.disconnected →
          ws ∈ (runLoop ws events s).1.active_connections) := by
  induction events with
  | nil =>
      intro s base hb hs
      refine ⟨fun h => by simp [runLoop] at h, fun _ => ?_⟩
      simp [runLoop, hs]
  | cons e rest ih =>
      intro s base hb hs
      cases e with
      | msg m =>
          have hc : (handle_message m s).1.active_connections = base ++ [ws] :=
            (handle_message_active_connections m s).trans hs
          have := ih (handle_message m s).1 base hb hc
          simpa [runLoop] using this
      | disconnectExn =>
          have hd : disconnect ws s.active_connections = some base := by
            rw [hs]; exact removeFirst_append_self ws base hb
          refine ⟨fun _ => ?_, fun hne => ?_⟩
          · simp [runLoop, hd]
          · exact absurd (by simp [runLoop, hd]) hne
      | otherExn =>
          refine ⟨fun h => by simp [runLoop] at h, fun _ => ?_⟩
          simp [runLoop, hs]

/-! ## The claims -/

/-- C1, counterexample: in the state with the dummy tables and the single
registered connection `1`, a `location_update` for the unknown vendor id
`"v9"` leaves the state unchanged and delivers nothing — contradicting the
claim that the message is still broadcast to every registered connection. -/
theorem C1_unknown_vendor_still_broadcasts_cex :
    stOne.active_connections = [1] ∧
    alistFind "v9" stOne.vendors = none ∧
    handle_message (Msg.location_update "v9" 0 0) stOne = (stOne, []) := by
  decide

/-- C1, amended: a `location_update` whose vendor id is not a key of the
vendor table leaves the whole state unchanged and broadcasts nothing — the
broadcast call sits inside the `if vendor_id in VENDORS` block, so no
connection receives the message. -/
theorem C1_unknown_vendor_silently_dropped (vid : String) (lat lng : Rat)
    (s : ServerState) (h : alistFind vid s.vendors = none) :
    handle_message (Msg.location_update vid lat lng) s = (s, []) := by
  simp [handle_message, h]

/-- C1, witness for the amended theorem at the concrete unknown id `"v9"`. -/
theorem C1_unknown_vendor_silently_dropped_witness :
    handle_message (Msg.location_update "v9" 0 0) stOne = (stOne, []) :=
  C1_unknown_vendor_silently_dropped "v9" 0 0 stOne (by decide)

/-- C2, counterexample: broadcasting to the registry `[1, 2, 3]` where the
send to connection `2` fails delivers the message only to connection `1` —
connection `3` never receives it — and leaves the registry, connection `2`
included, exactly as it was: the failing connection is not removed. -/
theorem C2_failure_isolated_and_removed_cex :
    broadcastStep (fun c => c == 2) (Msg.order_update "u") [1, 2, 3] =
      ([1, 2, 3], [(1, Msg.order_update "u")], some 2) := by
  decide

/-- C2, amended: when the send to connection `k` fails during a broadcast,
the exception aborts the loop: exactly the connections before `k` in registry
order receive the message, the connections after `k` receive nothing, and the
registry is returned unchanged — `k` is not removed. -/
theorem C2_broadcast_failure_aborts (fails : Conn → Bool) (m : Msg)
    (pre post : List Conn) (k : Conn)
    (hpre : ∀ c ∈ pre, fails c = false) (hk : fails k = true) :
    broadcastStep fails m (pre ++ k :: post) =
      (pre ++ k :: post, pre.map (fun c => (c, m)), some k) := by
  unfold broadcastStep
  rw [broadcastFail_first_failure fails m pre post k hpre hk]

/-- C2, witness for the amended theorem: registry `[1, 2, 3]`, failing
connection `2`. -/
theorem C2_broadcast_failure_aborts_witness :
    broadcastStep (fun c => c == 2) (Msg.order_update "w") [1, 2, 3] =
      ([1, 2, 3], [(1, Msg.order_update "w")], some 2) :=
  C2_broadcast_failure_aborts (fun c => c == 2) (Msg.order_update "w")
    [1] [3] 2 (by decide) (by decide)

/-- C3, counterexample: removing the absent connection `5` from the registry
`[1, 2]` raises `ValueError` (`list.remove` on a missing element), modelled as
`none` — contradicting the claim that the call is an error-free no-op. -/
theorem C3_remove_idempotent_cex :
    5 ∉ ([1, 2] : List Conn) ∧ disconnect 5 [1, 2] = none := by
  decide

/-- C3, amended: `disconnect` is not idempotent — it raises `ValueError`
exactly when the connection is absent from the registry, rather than treating
that case as a no-op. -/
theorem C3_disconnect_absent_raises (ws : Conn) (conns : List Conn) :
    disconnect ws conns = none ↔ ws ∉ conns :=
  removeFirst_eq_none_iff ws conns

/-- C4: the order id is `random.randint(1000, 9999)` with no uniqueness
check, so two placements whose draws coincide produce two simultaneously open
(`Pending`) orders with the same id.  Evaluated here: placing `reqV1` twice
from the initial state with draw `0` both times succeeds with id `1000` both
times and leaves `v1` with two open orders both carrying id `1000`. -/
theorem C4_duplicate_open_order_ids :
    (place_order 0 reqV1 initState).2.2 = PlaceResult.placed 1000 ∧
    (place_order 0 reqV1 (place_order 0 reqV1 initState).1).2.2 =
      PlaceResult.placed 1000 ∧
    (alistFind "v1"
        (place_order 0 reqV1 (place_order 0 reqV1 initState).1).1.vendors).map
        (fun v => v.orders.map (fun od => (od.id, od.status))) =
      some [(1000, "Pending"), (1000, "Pending")] := by
  decide

/-- C5: a `location_update` for a vendor id present in the vendor table
stores the message's `lat` and `lng` into that vendor, leaving its other
fields as they were, and delivers the received message unmodified to every
currently-registered connection (the sender's connection, being registered,
included). -/
theorem C5_known_vendor_location_update (vid : String) (lat lng : Rat)
    (s : ServerState) (v : Vendor) (h : alistFind vid s.vendors = some v) :
    alistFind vid (handle_message (Msg.location_update vid lat lng) s).1.vendors =
      some { v with lat := lat, lng := lng } ∧
    (handle_message (Msg.location_update vid lat lng) s).2 =
      s.active_connections.map (fun c => (c, Msg.location_update vid lat lng)) := by
  constructor
  · simp [handle_message, h, alistFind_alistModify_self]
  · simp [handle_message, h, broadcast]

/-- C5, witness: updating `v1` to `(1, 2)` in the state with one registered
connection. -/
theorem C5_known_vendor_location_update_witness :
    alistFind "v1" (handle_message (Msg.location_update "v1" 1 2) stOne).1.vendors =
      some { vendorV1 with lat := 1, lng := 2 } ∧
    (handle_message (Msg.location_update "v1" 1 2) stOne).2 =
      [(1, Msg.location_update "v1" 1 2)] :=
  C5_known_vendor_location_update "v1" 1 2 stOne vendorV1 (by decide)

/-- C6: placing an order against a vendor id present in the vendor table
appends exactly the one order `mkOrderData g req` — whose status is
`"Pending"` — to that vendor's order list, broadcasts the single `new_order`
message embedding that order to every registered connection, and returns the
success outcome carrying that order's id. -/
theorem C6_place_order_known (g : Nat) (req : OrderReq) (s : ServerState)
    (v : Vendor) (h : alistFind req.vendor_id s.vendors = some v) :
    (mkOrderData g req).status = "Pending" ∧
    alistFind req.vendor_id (place_order g req s).1.vendors =
      some { v with orders := v.orders ++ [mkOrderData g req] } ∧
    (place_order g req s).2.1 =
      s.active_connections.map
        (fun c => (c, Msg.new_order req.vendor_id (mkOrderData g req))) ∧
    (place_order g req s).2.2 = PlaceResult.placed (mkOrderData g req).id := by
  refine ⟨rfl, ?_, ?_, ?_⟩
  · simp [place_order, h, alistFind_alistModify_self]
  · simp [place_order, h, broadcast]
  · simp [place_order, h]

/-- C6, witness: placing `reqV1` with draw `0` in the state with one
registered connection. -/
theorem C6_place_order_known_witness :
    (mkOrderData 0 reqV1).status = "Pending" ∧
    alistFind "v1" (place_order 0 reqV1 stOne).1.vendors =
      some { vendorV1 with orders := [mkOrderData 0 reqV1] } ∧
    (place_order 0 reqV1 stOne).2.1 =
      [(1, Msg.new_order "v1" (mkOrderData 0 reqV1))] ∧
    (place_order 0 reqV1 stOne).2.2 = PlaceResult.placed (mkOrderData 0 reqV1).id :=
  C6_place_order_known 0 reqV1 stOne vendorV1 (by decide)

/-- C7: placing an order against a vendor id absent from the vendor table
returns the not-found outcome, broadcasts nothing, and leaves the whole state
— the vendor table in particular — unchanged. -/
theorem C7_place_order_unknown (g : Nat) (req : OrderReq) (s : ServerState)
    (h : alistFind req.vendor_id s.vendors = none) :
    place_order g req s = (s, [], PlaceResult.vendorNotFound) := by
  simp [place_order, h]

/-- C7, witness: placing `reqV9` (vendor id `"v9"`) in the state with one
registered connection. -/
theorem C7_place_order_unknown_witness :
    place_order 0 reqV9 stOne = (stOne, [], PlaceResult.vendorNotFound) :=
  C7_place_order_unknown 0 reqV9 stOne (by decide)

/-- C8, counterexample: a handler for connection `7` whose loop is left by an
exception other than `WebSocketDisconnect` (here: the first receive raises it)
finishes with connection `7` still in the registry — the `except` clause
catches only `WebSocketDisconnect`, and there is no `finally`, so this error
exit path removes nothing. -/
theorem C8_removed_on_every_exit_cex :
    (websocket_endpoint 7 [RecvEvent.otherExn] initState).2.2 =
      HandlerExit.crashed ∧
    7 ∈ (websocket_endpoint 7 [RecvEvent.otherExn] initState).1.active_connections := by
  decide

/-- C8, amended: for a connection not already registered, the handler removes
it from the registry only on the `WebSocketDisconnect` exit path — there the
registry returns exactly to its pre-handler contents — while on every other
end of the run (an uncaught exception, or the loop still pending) the
connection is still registered. -/
theorem C8_removed_only_on_disconnect (ws : Conn) (events : List RecvEvent)
    (s : ServerState) (hws : ws ∉ s.active_connections) :
    ((websocket_endpoint ws events s).2.2 = HandlerExit.disconnected →
        (websocket_endpoint ws events s).1.active_connections =
          s.active_connections) ∧
    ((websocket_endpoint ws events s).2.2 ≠ HandlerExit.disconnected →
        ws ∈ (websocket_endpoint ws events s).1.active_connections) := by
  unfold websocket_endpoint connect
  exact runLoop_membership ws events _ s.active_connections hws rfl

/-- C8, witness for the amended theorem: connection `7`, a trace consisting
of one `WebSocketDisconnect`, starting from the state whose registry is
`[1]`. -/
theorem C8_removed_only_on_disconnect_witness :
    (websocket_endpoint 7 [RecvEvent.disconnectExn] stOne).1.active_connections =
      stOne.active_connections :=
  (C8_removed_only_on_disconnect 7 [RecvEvent.disconnectExn] stOne (by decide)).1
    (by decide)

/-- C9: every successful order placement returns an order id in the inclusive
range `[1000, 9999]` — the image of `random.randint(1000, 9999)`. -/
theorem C9_order_id_in_range (g : Nat) (req : OrderReq) (s : ServerState)
    (oid : Nat) (h : (place_order g req s).2.2 = PlaceResult.placed oid) :
    1000 ≤ oid ∧ oid ≤ 9999 := by
  cases hv : alistFind req.vendor_id s.vendors with
  | none => simp [place_order, hv] at h
  | some v =>
      simp only [place_order, hv] at h
      have hoid : oid = 1000 + g % 9000 := by
        simpa [mkOrderData, randint] using h.symm
      have hlt : g % 9000 < 9000 := Nat.mod_lt _ (by norm_num)
      omega

/-- C9, witness: the placement of `reqV1` with draw `0` from `stOne` returns
id `1000`, which lies in `[1000, 9999]`. -/
theorem C9_order_id_in_range_witness : 1000 ≤ 1000 ∧ 1000 ≤ 9999 :=
  C9_order_id_in_range 0 reqV1 stOne 1000 (by decide)

/-- C10: placing an order against a known vendor id mutates nothing but that
vendor's order list: the menu table and the connection registry are returned
unchanged, the vendor's entry keeps its `id`, `name`, `lat`, `lng`, `icon`
and `category` and gains exactly the one appended order, and every other key
of the vendor table maps to the same value as before. -/
theorem C10_place_order_frame (g : Nat) (req : OrderReq) (s : ServerState)
    (v : Vendor) (h : alistFind req.vendor_id s.vendors = some v) :
    (place_order g req s).1.menu = s.menu ∧
    (place_order g req s).1.active_connections = s.active_connections ∧
    alistFind req.vendor_id (place_order g req s).1.vendors =
      some { v with orders := v.orders ++ [mkOrderData g req] } ∧
    ∀ k, k ≠ req.vendor_id →
      alistFind k (place_order g req s).1.vendors = alistFind k s.vendors := by
  refine ⟨?_, ?_, ?_, ?_⟩
  · simp [place_order, h]
  · simp [place_order, h]
  · simp [place_order, h, alistFind_alistModify_self]
  · intro k hk
    simp [place_order, h, alistFind_alistModify_ne _ _ _ _ hk]

/-- C10, witness: the placement of `reqV1` with draw `0` from `stOne` leaves
the menu, the registry, and (as the one checked instance of the other-keys
clause) the entry of `"v2"` unchanged, and `v1` gains exactly the appended
order. -/
theorem C10_place_order_frame_witness :
    (place_order 0 reqV1 stOne).1.menu = stOne.menu ∧
    (place_order 0 reqV1 stOne).1.active_connections = stOne.active_connections ∧
    alistFind "v1" (place_order 0 reqV1 stOne).1.vendors =
      some { vendorV1 with orders := [mkOrderData 0 reqV1] } ∧
    alistFind "v2" (place_order 0 reqV1 stOne).1.vendors =
      alistFind "v2" stOne.vendors := by
  have h := C10_place_order_frame 0 reqV1 stOne vendorV1 (by decide)
  exact ⟨h.1, h.2.1, h.2.2.1, h.2.2.2 "v2" (by decide)⟩

end GullyLink
